import Mathlib

/-!
Shallow embedding of the plumbing estimation service
(src/main.py, src/schemas.py).

Numbers: Python floats are modelled by the rationals; the Python call
`round(x, 2)` is modelled by `round2` below, rounding to the nearest
multiple of 1/100 (ties, which occur on no input considered here, go
half-up via the `round` of Mathlib).

The document store is modelled as an in-memory list of service documents
plus a fresh-id counter for the quote collection; a
`find` query with an `$in` filter on `_id` returns the matching
documents in storage order, which is how MongoDB serves an unsorted
`$in` query.
-/

namespace Plumbing

/-- Model of the Python call `round(x, 2)`: round to two decimal
places. -/
def round2 (x : ℚ) : ℚ := ((round (100 * x) : ℤ) : ℚ) / 100

/-- A raw service document as it comes back from the `service`
collection.  `name`, `unit` and `rate` are optional because the code
reads them with `s.get("name", "Service")`, `s.get("unit")` and
`s.get("rate", 0)` (src/main.py lines 94, 95, 105).  `docId` holds the
already-stringified `_id` of the document. -/
structure ServiceDoc where
  docId : String
  name : Option String
  unit : Option String
  rate : Option ℚ
  deriving DecidableEq, Repr

/-- Model of `QuoteRequest` from src/main.py lines 51-58.  The pydantic
model declares no bound on any numeric field. -/
structure QuoteRequest where
  project_name : String
  area_sqm : ℚ := 0
  fixtures : ℤ := 0
  service_ids : List String := []
  location_factor : ℚ := 1
  overhead_pct : ℚ := 1/10
  tax_pct : ℚ := 2/25
  deriving DecidableEq, Repr

/-- Model of `QuoteItem` from src/schemas.py lines 53-59 (field values;
the `Literal` constraint on `unit` is modelled by `validUnit`). -/
structure QuoteItem where
  service_id : String
  service_name : String
  unit : Option String
  quantity : ℚ
  rate : ℚ
  cost : ℚ
  deriving DecidableEq, Repr

/-- Model of `Quote` from src/schemas.py lines 61-77 (field values; the
pydantic field constraints are modelled separately by `quoteValid`). -/
structure Quote where
  project_name : String
  area_sqm : ℚ
  fixtures : ℤ
  selected_service_ids : List String
  location_factor : ℚ
  items : List QuoteItem
  subtotal : ℚ
  overhead : ℚ
  tax : ℚ
  total : ℚ
  deriving DecidableEq, Repr

/-- Model of `ObjectId.is_valid` on a string: a 24-character hex
string. -/
def isValidObjectId (s : String) : Bool :=
  s.length == 24 &&
    s.toList.all (fun c =>
      c.isDigit || (('a' ≤ c) && (c ≤ 'f')) || (('A' ≤ c) && (c ≤ 'F')))

/-- The document store: the `service` collection in storage order, and
the `quote` collection together with the next id it will assign. -/
structure Store where
  services : List ServiceDoc
  nextQuoteId : Nat
  quotes : List Quote
  deriving Repr

/-- Lines 85-89 of src/main.py: keep only well-formed ObjectIds, then a
single `$in` query returning matching documents in storage order. -/
def resolveServices (st : Store) (req : QuoteRequest) : List ServiceDoc :=
  if req.service_ids.isEmpty then []
  else
    let ids := req.service_ids.filter (fun s => isValidObjectId s)
    if ids.isEmpty then []
    else st.services.filter (fun s => ids.contains s.docId)

/-- Lines 96-100 of src/main.py: quantity dispatch on the unit of the
service; any unit other than `"sqm"` and `"fixture"` keeps the initial
`qty = 1.0`. -/
def qtyFor (req : QuoteRequest) (unit : Option String) : ℚ :=
  if unit = some "sqm" then max 0 req.area_sqm
  else if unit = some "fixture" then max 0 (req.fixtures : ℚ)
  else 1

/-- Line 95 of src/main.py: `float(s.get("rate", 0))`. -/
def rateOf (s : ServiceDoc) : ℚ := s.rate.getD 0

/-- Line 101 of src/main.py: the unrounded cost
`qty * rate * req.location_factor`. -/
def rawCost (req : QuoteRequest) (s : ServiceDoc) : ℚ :=
  qtyFor req s.unit * rateOf s * req.location_factor

/-- Lines 103-110 of src/main.py: the `QuoteItem` appended for one
resolved service document. -/
def mkItem (req : QuoteRequest) (s : ServiceDoc) : QuoteItem :=
  { service_id := s.docId
    service_name := s.name.getD "Service"
    unit := s.unit
    quantity := qtyFor req s.unit
    rate := rateOf s
    cost := round2 (rawCost req s) }

/-- Lines 92 and 102 of src/main.py: the running accumulation of the
*unrounded* per-item costs. -/
def rawSubtotal (req : QuoteRequest) (sel : List ServiceDoc) : ℚ :=
  (sel.map (rawCost req)).sum

/-- Lines 90-125 of src/main.py: the pure quote computation from the
request and the resolved service documents.  `overhead`, `tax` and
`total` are computed from the unrounded accumulators (lines 111-113) and
each financial field is rounded once when the `Quote` is built (lines
121-124). -/
def estimate (req : QuoteRequest) (sel : List ServiceDoc) : Quote :=
  let items := sel.map (mkItem req)
  let subtotal := rawSubtotal req sel
  let overhead := subtotal * req.overhead_pct
  let tax := (subtotal + overhead) * req.tax_pct
  let total := subtotal + overhead + tax
  { project_name := req.project_name
    area_sqm := req.area_sqm
    fixtures := req.fixtures
    selected_service_ids := req.service_ids
    location_factor := req.location_factor
    items := items
    subtotal := round2 subtotal
    overhead := round2 overhead
    tax := round2 tax
    total := round2 total }

/-- The pydantic `Literal["sqm", "fixture", "flat"]` check on
`QuoteItem.unit` (src/schemas.py line 56). -/
def validUnit (u : Option String) : Bool :=
  u == some "sqm" || u == some "fixture" || u == some "flat"

/-- The pydantic field constraints checked when a `Quote` is constructed
(src/schemas.py lines 61-77): `area_sqm ≥ 0`, `fixtures ≥ 0`,
`location_factor ∈ [0.5, 2.0]`, and each item unit literal. -/
def quoteValid (q : Quote) : Bool :=
  decide (0 ≤ q.area_sqm) && decide (0 ≤ q.fixtures) &&
  decide (1/2 ≤ q.location_factor) && decide (q.location_factor ≤ 2) &&
  q.items.all (fun it => validUnit it.unit)

/-- Outcome of one HTTP call: a success payload, or an HTTP error with
its status code. -/
inductive HttpResult (α : Type) where
  | ok (payload : α)
  | httpError (status : Nat)
  deriving DecidableEq, Repr

/-- True exactly on the success outcome. -/
def httpOk {α : Type} : HttpResult α → Bool
  | .ok _ => true
  | .httpError _ => false

/-- A status code in 4xx is a client error; 5xx is a server failure. -/
def isClientError (status : Nat) : Bool := 400 ≤ status && status < 500

/-- The `POST /estimate` handler (src/main.py lines 81-129).
`QuoteRequest` carries no field bounds, so every well-typed body enters
the handler; the computation runs, and only the pydantic validation at
`Quote(...)` construction can fail, in which case the blanket
`except Exception` turns it into `HTTPException(500, ...)`.  On success
the store assigns the next id and persists the quote. -/
def estimateEndpoint (st : Store) (req : QuoteRequest) :
    HttpResult (Nat × Quote) × Store :=
  let sel := resolveServices st req
  let q := estimate req sel
  if quoteValid q then
    (.ok (st.nextQuoteId, q),
     { st with nextQuoteId := st.nextQuoteId + 1, quotes := st.quotes ++ [q] })
  else
    (.httpError 500, st)

/-! ### Concrete fixtures used by witnesses and counterexamples -/

/-- The seeded `Pipe Installation` service (sqm, rate 35). -/
def svcPipe : ServiceDoc :=
  { docId := "aaaaaaaaaaaaaaaaaaaaaaaa", name := some "Pipe Installation",
    unit := some "sqm", rate := some 35 }

/-- The seeded `Fixture Installation` service (fixture, rate 85). -/
def svcFixture : ServiceDoc :=
  { docId := "bbbbbbbbbbbbbbbbbbbbbbbb", name := some "Fixture Installation",
    unit := some "fixture", rate := some 85 }

/-- A flat service whose unrounded cost at factor 1 is 1.004. -/
def svcPennyA : ServiceDoc :=
  { docId := "cccccccccccccccccccccccc", name := some "Penny A",
    unit := some "flat", rate := some (251/250) }

/-- A second flat service with the same 1.004 rate, distinct id. -/
def svcPennyB : ServiceDoc :=
  { docId := "dddddddddddddddddddddddd", name := some "Penny B",
    unit := some "flat", rate := some (251/250) }

/-- A service document with no `rate` field at all. -/
def svcNoRate : ServiceDoc :=
  { docId := "eeeeeeeeeeeeeeeeeeeeeeee", name := some "No Rate",
    unit := some "flat", rate := none }

/-- The request of the worked example in the spec (§8). -/
def reqExample : QuoteRequest :=
  { project_name := "example", area_sqm := 10, fixtures := 2,
    service_ids := ["aaaaaaaaaaaaaaaaaaaaaaaa", "bbbbbbbbbbbbbbbbbbbbbbbb"],
    location_factor := 1, overhead_pct := 1/10, tax_pct := 2/25 }

/-- Store holding exactly the two example services. -/
def stExample : Store :=
  { services := [svcPipe, svcFixture], nextQuoteId := 0, quotes := [] }

/-- Store holding the two penny services. -/
def stPenny : Store :=
  { services := [svcPennyA, svcPennyB], nextQuoteId := 0, quotes := [] }

/-- Request selecting one penny service with 100 percent overhead and no
tax, so every financial aggregate reuses the 1.004 value. -/
def reqPennyOne : QuoteRequest :=
  { project_name := "penny1", service_ids := ["cccccccccccccccccccccccc"],
    location_factor := 1, overhead_pct := 1, tax_pct := 0 }

/-- Request selecting both penny services, default percentages. -/
def reqPennyTwo : QuoteRequest :=
  { project_name := "penny2",
    service_ids := ["cccccccccccccccccccccccc", "dddddddddddddddddddddddd"],
    location_factor := 1, overhead_pct := 1/10, tax_pct := 2/25 }

/-- A request with no selected services. -/
def reqEmptyIds : QuoteRequest := { project_name := "empty" }

/-- A request with negative area and fixture count. -/
def reqNegative : QuoteRequest :=
  { project_name := "neg", area_sqm := -5, fixtures := -3,
    service_ids := ["aaaaaaaaaaaaaaaaaaaaaaaa"] }

/-- A request whose location factor 3 lies outside [0.5, 2.0]. -/
def reqBadLf : QuoteRequest :=
  { project_name := "bad", area_sqm := 10, fixtures := 0,
    service_ids := ["aaaaaaaaaaaaaaaaaaaaaaaa"],
    location_factor := 3, overhead_pct := 1/10, tax_pct := 2/25 }

/-- The quote that the worked example of §8 must produce. -/
def quoteExample : Quote :=
  { project_name := "example", area_sqm := 10, fixtures := 2,
    selected_service_ids := ["aaaaaaaaaaaaaaaaaaaaaaaa", "bbbbbbbbbbbbbbbbbbbbbbbb"],
    location_factor := 1,
    items := [
      { service_id := "aaaaaaaaaaaaaaaaaaaaaaaa", service_name := "Pipe Installation",
        unit := some "sqm", quantity := 10, rate := 35, cost := 350 },
      { service_id := "bbbbbbbbbbbbbbbbbbbbbbbb", service_name := "Fixture Installation",
        unit := some "fixture", quantity := 2, rate := 85, cost := 170 }],
    subtotal := 520, overhead := 52, tax := 4576/100, total := 61776/100 }

/-- The example store after one successful estimate call. -/
def stExample2 : Store :=
  { services := [svcPipe, svcFixture], nextQuoteId := 1, quotes := [quoteExample] }

/-! ### Helper lemmas -/

/-- Service resolution is a filter of the catalog against the set of
well-formed requested ids, in catalog storage order. -/
theorem resolveServices_eq_filter (st : Store) (req : QuoteRequest) :
    resolveServices st req =
      st.services.filter
        (fun s => (req.service_ids.filter (fun i => isValidObjectId i)).contains s.docId) := by
  unfold resolveServices
  by_cases h1 : req.service_ids.isEmpty
  · have h1' : req.service_ids = [] := List.isEmpty_iff.mp h1
    simp [h1']
  · simp only [h1, if_false]
    by_cases h2 : (req.service_ids.filter (fun i => isValidObjectId i)).isEmpty
    · have h2' : req.service_ids.filter (fun i => isValidObjectId i) = [] :=
        List.isEmpty_iff.mp h2
      simp [h2, h2']
    · simp [h2]

/-- Appending a malformed or unknown id to the request leaves the
resolved service list unchanged. -/
theorem resolveServices_append_bad (st : Store) (req : QuoteRequest) (bad : String)
    (h : isValidObjectId bad = false ∨ ∀ s ∈ st.services, s.docId ≠ bad) :
    resolveServices st { req with service_ids := req.service_ids ++ [bad] } =
      resolveServices st req := by
  rw [resolveServices_eq_filter, resolveServices_eq_filter]
  simp only [List.filter_append]
  rcases h with hbad | hbad
  · simp [hbad]
  · cases hv : isValidObjectId bad with
    | false => simp [hv]
    | true =>
      simp only [List.filter_cons, hv, if_true, List.filter_nil]
      apply List.filter_congr
      intro s hs
      simp [hbad s hs]

/-- Evaluation of the worked example estimate to its literal quote. -/
theorem estimate_example_eq : estimate reqExample [svcPipe, svcFixture] = quoteExample := by
  norm_num [estimate, mkItem, rawSubtotal, rawCost, qtyFor, rateOf, round2, round_eq,
    svcPipe, svcFixture, reqExample, quoteExample, Quote.mk.injEq, QuoteItem.mk.injEq,
    (by decide : ("fixture" = "sqm") = False)]

/-- The worked example quote passes the pydantic `Quote` constraints. -/
theorem quoteValid_example : quoteValid quoteExample = true := by
  norm_num [quoteValid, quoteExample, validUnit]

/-- First call of the endpoint on the example store: id 0 and the
example quote. -/
theorem endpoint_example_first :
    (estimateEndpoint stExample reqExample).1 = .ok (0, quoteExample) := by
  have hsel : resolveServices stExample reqExample = [svcPipe, svcFixture] := by rfl
  have hqv : quoteValid (estimate reqExample (resolveServices stExample reqExample)) = true := by
    rw [hsel, estimate_example_eq, quoteValid_example]
  simp only [estimateEndpoint, hqv, if_true]
  rw [hsel, estimate_example_eq]
  rfl

/-- Second call of the endpoint, on the store the first call returned:
id 1 and the same quote. -/
theorem endpoint_example_second :
    (estimateEndpoint (estimateEndpoint stExample reqExample).2 reqExample).1 =
      .ok (1, quoteExample) := by
  have hsel : resolveServices stExample reqExample = [svcPipe, svcFixture] := by rfl
  have hqv : quoteValid (estimate reqExample (resolveServices stExample reqExample)) = true := by
    rw [hsel, estimate_example_eq, quoteValid_example]
  have hst2 : (estimateEndpoint stExample reqExample).2 = stExample2 := by
    simp only [estimateEndpoint, hqv, if_true]
    rw [hsel, estimate_example_eq]
    rfl
  rw [hst2]
  have hsel2 : resolveServices stExample2 reqExample = [svcPipe, svcFixture] := by rfl
  have hqv2 : quoteValid (estimate reqExample (resolveServices stExample2 reqExample)) = true := by
    rw [hsel2, estimate_example_eq, quoteValid_example]
  simp only [estimateEndpoint, hqv2, if_true]
  rw [hsel2, estimate_example_eq]
  rfl

/-! ### Claim theorems -/

/-- C1 (counterexample): the stored total is not composed from the
already-rounded stored subtotal, overhead and tax.  With one flat
service of rate 1.004, full overhead and no tax, the code stores
total = round(2.008) = 2.01 while recomposing from the rounded parts
gives round(1.00 + 1.00 + 0) = 2.00. -/
theorem estimate_total_not_from_rounded_parts :
    (estimate reqPennyOne (resolveServices stPenny reqPennyOne)).total ≠
      round2 ((estimate reqPennyOne (resolveServices stPenny reqPennyOne)).subtotal +
        (estimate reqPennyOne (resolveServices stPenny reqPennyOne)).overhead +
        (estimate reqPennyOne (resolveServices stPenny reqPennyOne)).tax) := by
  have hsel : resolveServices stPenny reqPennyOne = [svcPennyA] := by rfl
  rw [hsel]
  norm_num [estimate, mkItem, rawSubtotal, rawCost, qtyFor, rateOf, round2, round_eq,
    svcPennyA, reqPennyOne,
    (by decide : ("flat" = "sqm") = False), (by decide : ("flat" = "fixture") = False)]

/-- C1 (amended): the financial aggregates are each computed from the
*unrounded* running subtotal and rounded once: overhead is
round(raw_subtotal * overhead_pct, 2), tax is
round((raw_subtotal + raw_overhead) * tax_pct, 2) with the unrounded
overhead, and total is round(raw_subtotal + raw_overhead + raw_tax, 2)
with the unrounded overhead and tax. -/
theorem estimate_aggregates_from_unrounded (req : QuoteRequest) (sel : List ServiceDoc) :
    (estimate req sel).overhead = round2 (rawSubtotal req sel * req.overhead_pct) ∧
    (estimate req sel).tax =
      round2 ((rawSubtotal req sel + rawSubtotal req sel * req.overhead_pct) * req.tax_pct) ∧
    (estimate req sel).total =
      round2 (rawSubtotal req sel + rawSubtotal req sel * req.overhead_pct +
        (rawSubtotal req sel + rawSubtotal req sel * req.overhead_pct) * req.tax_pct) :=
  ⟨rfl, rfl, rfl⟩

/-- C2 (counterexample): with two flat services of rate 1.004 the stored
subtotal round(2.008) = 2.01 differs from the sum 1.00 + 1.00 = 2.00 of
the rounded item cost fields. -/
theorem subtotal_ne_sum_of_rounded_costs :
    (estimate reqPennyTwo (resolveServices stPenny reqPennyTwo)).subtotal ≠
      (((estimate reqPennyTwo (resolveServices stPenny reqPennyTwo)).items.map
        QuoteItem.cost).sum) := by
  have hsel : resolveServices stPenny reqPennyTwo = [svcPennyA, svcPennyB] := by rfl
  rw [hsel]
  norm_num [estimate, mkItem, rawSubtotal, rawCost, qtyFor, rateOf, round2, round_eq,
    svcPennyA, svcPennyB, reqPennyTwo,
    (by decide : ("flat" = "sqm") = False), (by decide : ("flat" = "fixture") = False)]

/-- C2 (amended): the stored subtotal is the once-rounded sum of the
*unrounded* per-item costs quantity * rate * location_factor, not the
sum of the per-item rounded cost fields. -/
theorem subtotal_is_round_of_unrounded_sum (req : QuoteRequest) (sel : List ServiceDoc) :
    (estimate req sel).subtotal =
      round2 (((estimate req sel).items.map
        (fun it => it.quantity * it.rate * req.location_factor)).sum) := by
  have hfun : ((fun it : QuoteItem => it.quantity * it.rate * req.location_factor) ∘ mkItem req)
      = rawCost req := by
    funext s
    simp [mkItem, rawCost]
  simp [estimate, rawSubtotal, List.map_map, hfun]

/-- C3: every item of an estimate follows the unit dispatch (sqm gives
max(0, area_sqm), fixture gives max(0, fixtures), flat gives 1) and its
cost field is round(quantity * rate * location_factor, 2). -/
theorem item_unit_dispatch_and_cost (req : QuoteRequest) (sel : List ServiceDoc)
    (it : QuoteItem) (hit : it ∈ (estimate req sel).items) :
    (it.unit = some "sqm" → it.quantity = max 0 req.area_sqm) ∧
    (it.unit = some "fixture" → it.quantity = max 0 (req.fixtures : ℚ)) ∧
    (it.unit = some "flat" → it.quantity = 1) ∧
    it.cost = round2 (it.quantity * it.rate * req.location_factor) := by
  simp [estimate] at hit
  obtain ⟨s, hs, rfl⟩ := hit
  refine ⟨?_, ?_, ?_, ?_⟩
  · intro h
    simp [mkItem] at h ⊢
    simp [qtyFor, h]
  · intro h
    simp [mkItem] at h ⊢
    simp [qtyFor, h, (by decide : ("fixture" = "sqm") = False)]
  · intro h
    simp [mkItem] at h ⊢
    simp [qtyFor, h, (by decide : ("flat" = "sqm") = False),
      (by decide : ("flat" = "fixture") = False)]
  · simp [mkItem, rawCost]

/-- Witness for C3: the sqm item of the worked example. -/
theorem item_unit_dispatch_and_cost_witness :
    (mkItem reqExample svcPipe ∈ (estimate reqExample [svcPipe]).items) ∧
    (((mkItem reqExample svcPipe).unit = some "sqm" →
        (mkItem reqExample svcPipe).quantity = max 0 reqExample.area_sqm) ∧
      ((mkItem reqExample svcPipe).unit = some "fixture" →
        (mkItem reqExample svcPipe).quantity = max 0 (reqExample.fixtures : ℚ)) ∧
      ((mkItem reqExample svcPipe).unit = some "flat" →
        (mkItem reqExample svcPipe).quantity = 1) ∧
      (mkItem reqExample svcPipe).cost =
        round2 ((mkItem reqExample svcPipe).quantity * (mkItem reqExample svcPipe).rate *
          reqExample.location_factor)) :=
  ⟨by simp [estimate],
   item_unit_dispatch_and_cost reqExample [svcPipe] (mkItem reqExample svcPipe)
     (by simp [estimate])⟩

/-- C4: a request with no service ids yields an empty item list and all
financial fields zero, whatever the percentages are. -/
theorem empty_service_ids_gives_zero_quote (st : Store) (req : QuoteRequest)
    (h : req.service_ids = []) :
    (estimate req (resolveServices st req)).items = [] ∧
    (estimate req (resolveServices st req)).subtotal = 0 ∧
    (estimate req (resolveServices st req)).overhead = 0 ∧
    (estimate req (resolveServices st req)).tax = 0 ∧
    (estimate req (resolveServices st req)).total = 0 := by
  have hsel : resolveServices st req = [] := by simp [resolveServices, h]
  rw [hsel]
  norm_num [estimate, rawSubtotal, round2]

/-- Witness for C4: the empty-selection request on the example store. -/
theorem empty_service_ids_gives_zero_quote_witness :
    (reqEmptyIds.service_ids = []) ∧
    ((estimate reqEmptyIds (resolveServices stExample reqEmptyIds)).items = [] ∧
     (estimate reqEmptyIds (resolveServices stExample reqEmptyIds)).subtotal = 0 ∧
     (estimate reqEmptyIds (resolveServices stExample reqEmptyIds)).overhead = 0 ∧
     (estimate reqEmptyIds (resolveServices stExample reqEmptyIds)).tax = 0 ∧
     (estimate reqEmptyIds (resolveServices stExample reqEmptyIds)).total = 0) :=
  ⟨rfl, empty_service_ids_gives_zero_quote stExample reqEmptyIds rfl⟩

/-- C5: appending an unknown or malformed id to the request changes
neither the produced items nor the HTTP success of the call. -/
theorem unknown_id_contributes_nothing (st : Store) (req : QuoteRequest) (bad : String)
    (h : isValidObjectId bad = false ∨ ∀ s ∈ st.services, s.docId ≠ bad) :
    (estimate { req with service_ids := req.service_ids ++ [bad] }
        (resolveServices st { req with service_ids := req.service_ids ++ [bad] })).items =
      (estimate req (resolveServices st req)).items ∧
    httpOk (estimateEndpoint st { req with service_ids := req.service_ids ++ [bad] }).1 =
      httpOk (estimateEndpoint st req).1 := by
  have hres := resolveServices_append_bad st req bad h
  constructor
  · rw [hres]
    rfl
  · have hq : quoteValid (estimate { req with service_ids := req.service_ids ++ [bad] }
        (resolveServices st req)) = quoteValid (estimate req (resolveServices st req)) := rfl
    simp only [estimateEndpoint, hres, hq]
    cases hv : quoteValid (estimate req (resolveServices st req)) <;> simp [hv, httpOk]

/-- Witness for C5: a syntactically malformed id appended to the worked
example request. -/
theorem unknown_id_contributes_nothing_witness :
    (isValidObjectId "not-a-valid-objectid-xyz" = false ∨
      ∀ s ∈ stExample.services, s.docId ≠ "not-a-valid-objectid-xyz") ∧
    ((estimate { reqExample with
          service_ids := reqExample.service_ids ++ ["not-a-valid-objectid-xyz"] }
        (resolveServices stExample { reqExample with
          service_ids := reqExample.service_ids ++ ["not-a-valid-objectid-xyz"] })).items =
      (estimate reqExample (resolveServices stExample reqExample)).items ∧
    httpOk (estimateEndpoint stExample { reqExample with
        service_ids := reqExample.service_ids ++ ["not-a-valid-objectid-xyz"] }).1 =
      httpOk (estimateEndpoint stExample reqExample).1) :=
  ⟨Or.inl (by decide),
   unknown_id_contributes_nothing stExample reqExample "not-a-valid-objectid-xyz"
     (Or.inl (by decide))⟩

/-- C6 (counterexample): a request whose location factor 3 is out of
range is not rejected before the computation as a client error: the
computation runs (its total is 1247.40) and the call reports the generic
server status 500, which is not a 4xx client error. -/
theorem malformed_request_gets_500_after_computation :
    (estimateEndpoint stExample reqBadLf).1 = .httpError 500 ∧
    isClientError 500 = false ∧
    (estimate reqBadLf (resolveServices stExample reqBadLf)).total = 12474/10 := by
  have hsel : resolveServices stExample reqBadLf = [svcPipe] := by rfl
  have hD : decide ((3 : ℚ) ≤ 2) = false := by norm_num
  have hq : quoteValid (estimate reqBadLf (resolveServices stExample reqBadLf)) = false := by
    rw [hsel]
    simp [quoteValid, estimate, reqBadLf, hD]
  refine ⟨?_, by decide, ?_⟩
  · simp [estimateEndpoint, hq]
  · rw [hsel]
    norm_num [estimate, rawSubtotal, rawCost, qtyFor, rateOf, round2, round_eq,
      svcPipe, reqBadLf, (by decide : ("sqm" = "fixture") = False)]

/-- C6 (amended): a request with a malformed numeric field (negative
area or fixtures, or location factor outside [0.5, 2.0]) passes the
request model, the computation runs, and the failure raised at `Quote`
construction surfaces as the generic server status 500, not as a client
error. -/
theorem malformed_field_gives_generic_500 (st : Store) (req : QuoteRequest)
    (h : ¬ (0 ≤ req.area_sqm ∧ 0 ≤ req.fixtures ∧
            (1/2 : ℚ) ≤ req.location_factor ∧ req.location_factor ≤ 2)) :
    (estimateEndpoint st req).1 = .httpError 500 ∧ isClientError 500 = false := by
  have hq : quoteValid (estimate req (resolveServices st req)) = false := by
    cases hv : quoteValid (estimate req (resolveServices st req)) with
    | false => rfl
    | true =>
      exfalso
      apply h
      simp only [quoteValid, estimate, Bool.and_eq_true, decide_eq_true_eq] at hv
      refine ⟨?_, ?_, ?_, ?_⟩ <;> tauto
  refine ⟨?_, by decide⟩
  simp [estimateEndpoint, hq]

/-- Witness for the amended C6: the out-of-range location factor 3. -/
theorem malformed_field_gives_generic_500_witness :
    (¬ (0 ≤ reqBadLf.area_sqm ∧ 0 ≤ reqBadLf.fixtures ∧
        (1/2 : ℚ) ≤ reqBadLf.location_factor ∧ reqBadLf.location_factor ≤ 2)) ∧
    ((estimateEndpoint stExample reqBadLf).1 = .httpError 500 ∧ isClientError 500 = false) :=
  ⟨by norm_num [reqBadLf],
   malformed_field_gives_generic_500 stExample reqBadLf (by norm_num [reqBadLf])⟩

/-- C7: the worked example of §8 — area 10 and 2 fixtures over the sqm
rate 35 and fixture rate 85 at factor 1 with 10 percent overhead and 8
percent tax — yields item costs 350 and 170, subtotal 520, overhead 52,
tax 45.76 and total 617.76. -/
theorem estimate_matches_worked_example :
    ((estimate reqExample (resolveServices stExample reqExample)).items.map QuoteItem.cost
        = [350, 170]) ∧
    (estimate reqExample (resolveServices stExample reqExample)).subtotal = 520 ∧
    (estimate reqExample (resolveServices stExample reqExample)).overhead = 52 ∧
    (estimate reqExample (resolveServices stExample reqExample)).tax = 4576/100 ∧
    (estimate reqExample (resolveServices stExample reqExample)).total = 61776/100 := by
  have hsel : resolveServices stExample reqExample = [svcPipe, svcFixture] := by rfl
  rw [hsel]
  norm_num [estimate, mkItem, rawSubtotal, rawCost, qtyFor, rateOf, round2, round_eq,
    svcPipe, svcFixture, reqExample,
    (by decide : ("fixture" = "sqm") = False)]

/-- C8: two estimate calls with the same request against an unchanged
catalog produce equal quotes (hence identical items, subtotal, overhead,
tax and total) under distinct assigned ids. -/
theorem repeated_estimate_identical_quotes (st : Store) (req : QuoteRequest)
    (n1 n2 : Nat) (q1 q2 : Quote)
    (h1 : (estimateEndpoint st req).1 = .ok (n1, q1))
    (h2 : (estimateEndpoint (estimateEndpoint st req).2 req).1 = .ok (n2, q2)) :
    q1 = q2 ∧ n1 ≠ n2 := by
  cases hv : quoteValid (estimate req (resolveServices st req)) with
  | false => simp [estimateEndpoint, hv] at h1
  | true =>
    have hst2 : (estimateEndpoint st req).2 =
        { st with nextQuoteId := st.nextQuoteId + 1,
                  quotes := st.quotes ++ [estimate req (resolveServices st req)] } := by
      simp [estimateEndpoint, hv]
    have hres2 : resolveServices
        { st with nextQuoteId := st.nextQuoteId + 1,
                  quotes := st.quotes ++ [estimate req (resolveServices st req)] } req =
        resolveServices st req := rfl
    rw [hst2] at h2
    simp only [estimateEndpoint, hres2, hv, if_true] at h1 h2
    simp only [HttpResult.ok.injEq, Prod.mk.injEq] at h1 h2
    obtain ⟨hn1, hq1⟩ := h1
    obtain ⟨hn2, hq2⟩ := h2
    subst hq1
    subst hq2
    refine ⟨rfl, ?_⟩
    omega

/-- Witness for C8: two consecutive calls on the example store return
ids 0 and 1 with the same quote. -/
theorem repeated_estimate_identical_quotes_witness :
    ((estimateEndpoint stExample reqExample).1 = .ok (0, quoteExample)) ∧
    ((estimateEndpoint (estimateEndpoint stExample reqExample).2 reqExample).1 =
      .ok (1, quoteExample)) ∧
    (quoteExample = quoteExample ∧ 0 ≠ 1) :=
  ⟨endpoint_example_first, endpoint_example_second,
   repeated_estimate_identical_quotes stExample reqExample 0 1 quoteExample quoteExample
     endpoint_example_first endpoint_example_second⟩

/-- C9: a resolved document without a rate field gets rate 0, cost 0,
and adds nothing to the running subtotal. -/
theorem missing_rate_defaults_to_zero (req : QuoteRequest) (s : ServiceDoc)
    (h : s.rate = none) :
    (mkItem req s).rate = 0 ∧ (mkItem req s).cost = 0 ∧
    (∀ sel : List ServiceDoc, rawSubtotal req (s :: sel) = rawSubtotal req sel) := by
  refine ⟨by simp [mkItem, rateOf, h], ?_, ?_⟩
  · norm_num [mkItem, rawCost, rateOf, h, round2]
  · intro sel
    simp [rawSubtotal, rawCost, rateOf, h]

/-- Witness for C9: the rate-less flat service document. -/
theorem missing_rate_defaults_to_zero_witness :
    (svcNoRate.rate = none) ∧
    ((mkItem reqExample svcNoRate).rate = 0 ∧ (mkItem reqExample svcNoRate).cost = 0 ∧
     (∀ sel : List ServiceDoc,
        rawSubtotal reqExample (svcNoRate :: sel) = rawSubtotal reqExample sel)) :=
  ⟨rfl, missing_rate_defaults_to_zero reqExample svcNoRate rfl⟩

/-- C10: every item of every estimate has a non-negative quantity, the
max(0, ...) clamp covering even negative request inputs. -/
theorem quote_item_quantity_nonneg (req : QuoteRequest) (sel : List ServiceDoc)
    (it : QuoteItem) (hit : it ∈ (estimate req sel).items) : 0 ≤ it.quantity := by
  simp [estimate] at hit
  obtain ⟨s, hs, rfl⟩ := hit
  simp only [mkItem, qtyFor]
  split
  · exact le_max_left 0 _
  · split
    · exact le_max_left 0 _
    · exact zero_le_one

/-- Witness for C10: the sqm item of a request with negative area and
fixture count. -/
theorem quote_item_quantity_nonneg_witness :
    (mkItem reqNegative svcPipe ∈ (estimate reqNegative [svcPipe]).items) ∧
    0 ≤ (mkItem reqNegative svcPipe).quantity :=
  ⟨by simp [estimate],
   quote_item_quantity_nonneg reqNegative [svcPipe] (mkItem reqNegative svcPipe)
     (by simp [estimate])⟩

end Plumbing
